import Mathlib

/-!
Verification development for the joob batch scheduler (Operation / Job / Queue).

The embedding below is a shallow, executable model of the code in
src/unnamed/part_005 (the Operation and Job classes) and
src/unnamed/part_008 (the Queue accessors).  The asynchronous JavaScript
semantics is made explicit:

* timers (`setTimeout`) and promise settlements are tasks in a queue,
  processed in order of (time, priority, sequence number); a promise
  settlement carries priority 0 and a timer priority 1, so a settlement
  that becomes due at the current instant runs before timers due at the
  same instant (microtasks drain before macrotasks), while timers keep
  their FIFO order via the sequence number;
* the per-operation `events` emitter is modelled by counters of live
  once-listeners (the Job attaches one STARTED, one COMPLETED and one
  FAILED once-listener at every dispatch); `emit` takes the count of
  live listeners, removes them, and runs the fixed handler body that
  many times — listeners attached while the handlers run survive for
  the next emission, exactly as in the Node EventEmitter;
* the opaque transform is an oracle: `succeeds id attempt` tells whether
  attempt number `attempt` (1-based) of operation `id` resolves or
  rejects, and `latency id attempt` tells after how many milliseconds
  the promise settles (0 models an immediately settled promise, whose
  reaction is a microtask).

Wall-clock statistics fields of the Job (startTime,
effectiveTimePerOperation, estimatedTimeRemaining) are not modelled; no
claim mentions them.  Two ghost counters are carried for observability:
`attempts` counts invocations of the transform (calls of `execute`),
and `failEmits` counts emissions of OPERATION_FAILED by the operation.
The `finalized` log entry records the instant an operation is pushed
onto `completedOperations`, together with its counters at that instant.
-/

namespace Joob

/-- The STATUSES record of src/unnamed/part_009. -/
inductive OpStatus
  | pending
  | started
  | completed
  | failed
deriving DecidableEq, Repr

/-- State of one Operation (class Operation, part_005 lines 16-91),
together with the live once-listener counts that the enclosing Job has
attached to its emitter, and the ghost counters described above. -/
structure OperationState where
  status : OpStatus
  result : Option Bool
  timesFailed : Nat
  attempts : Nat
  failEmits : Nat
  startedListeners : Nat
  completedListeners : Nat
  failedListeners : Nat
deriving DecidableEq, Repr

/-- A freshly constructed Operation (part_005 lines 40-48). -/
def operationNew : OperationState :=
  { status := .pending, result := none, timesFailed := 0, attempts := 0,
    failEmits := 0, startedListeners := 0, completedListeners := 0,
    failedListeners := 0 }

/-- Observable events of one Job run.  The op-prefixed constructors are
the emissions of the Operation itself; the fwd-prefixed ones are the
Job-level re-emissions performed by the once-listeners.  jobCompleted
carries a snapshot of (queuedOperations, currentOperations,
numCurrentOperations) at the emission instant.  finalized is ghost: it
records the push onto completedOperations with the timesFailed and
failEmits counters of the operation at that instant. -/
inductive JobEv
  | opStarted (id : Nat)
  | opCompleted (id : Nat)
  | opFailed (id : Nat)
  | fwdOpStarted (id : Nat)
  | fwdOpCompleted (id : Nat)
  | fwdOpFailed (id : Nat)
  | jobStarted
  | jobCompleted (queuedIds : List Nat) (currentIds : List Nat) (numCur : Int)
  | finalized (id : Nat) (timesFailed : Nat) (failEmits : Nat)
deriving DecidableEq, Repr

/-- Pending asynchronous work: a promise settlement of a given attempt
of an operation, a setTimeout that calls Operation.start, or a
setTimeout that calls startNextOperation(true) (the cooldown timer). -/
inductive TaskKind
  | settle (id : Nat) (attempt : Nat)
  | runStart (id : Nat)
  | dispatch
deriving DecidableEq, Repr

/-- A scheduled task: due time, priority (0 = promise reaction,
1 = timer), insertion sequence number. -/
structure STask where
  time : Nat
  prio : Nat
  seq : Nat
  kind : TaskKind
deriving DecidableEq, Repr

/-- Configuration of one Job (JobParams of part_005 plus the transform
oracle).  Operation ids are 0..nOps-1 (dataToId is taken injective, as
in the bundled examples where dataToId returns the datum itself). -/
structure JobConfig where
  nOps : Nat
  maxConcurrentOperations : Nat
  maxFailuresPerOperation : Nat
  cooldown : Nat
  throttle : Nat
  succeeds : Nat → Nat → Bool
  latency : Nat → Nat → Nat

/-- The full mutable state of one running Job (class Job, part_005
lines 124-386) plus the task queue and clock of the event loop and the
event log.  cooldownApplications is a ghost counter of how many times
the cooldown branch of startNextOperation ran. -/
structure JobState where
  ops : List OperationState
  status : OpStatus
  queuedOperations : List Nat
  currentOperations : List Nat
  numCurrentOperations : Int
  completedOperations : List (Option Nat)
  log : List JobEv
  tasks : List STask
  now : Nat
  nextSeq : Nat
  cooldownApplications : Nat
deriving DecidableEq, Repr

/-- Read an operation by id (operationIndex access). -/
def opsGet (s : JobState) (id : Nat) : OperationState :=
  s.ops.getD id operationNew

/-- Write an operation by id. -/
def opsSet (s : JobState) (id : Nat) (o : OperationState) : JobState :=
  { s with ops := s.ops.set id o }

/-- Append one event to the log. -/
def pushLog (s : JobState) (e : JobEv) : JobState :=
  { s with log := s.log ++ [e] }

/-- Append several events to the log. -/
def appendLogs (s : JobState) (es : List JobEv) : JobState :=
  { s with log := s.log ++ es }

/-- Strict ordering of tasks by (time, priority, sequence). -/
def taskBefore (a b : STask) : Bool :=
  a.time < b.time ||
    (a.time = b.time &&
      (a.prio < b.prio || (a.prio = b.prio && a.seq < b.seq)))

/-- Insert a task keeping the list sorted by taskBefore. -/
def insertTask (t : STask) : List STask → List STask
  | [] => [t]
  | u :: us => if taskBefore t u then t :: u :: us else u :: insertTask t us

/-- Schedule a task after the given delay with the given priority. -/
def schedule (s : JobState) (delay : Nat) (prio : Nat) (k : TaskKind) : JobState :=
  { s with
    tasks := insertTask ⟨s.now + delay, prio, s.nextSeq, k⟩ s.tasks,
    nextSeq := s.nextSeq + 1 }

/-- Operation.start (part_005 lines 53-74).  The idempotence guard
returns unchanged when the status is already STARTED; otherwise the
status becomes STARTED, OPERATION_STARTED is emitted (consuming all
live started-once-listeners, each of which only re-emits at Job level),
and execute() invokes the transform, whose settlement is scheduled as a
priority-0 task after its latency.  The record update is written as a
single set: status := STARTED, the started-listeners are consumed by
the emission, and the ghost attempts counter advances with execute. -/
def operationStart (c : JobConfig) (id : Nat) (s : JobState) : JobState :=
  let o := opsGet s id
  if o.status = .started then s
  else
    let a := o.attempts + 1
    let s1 := opsSet s id
      { o with status := .started, startedListeners := 0, attempts := a }
    let s2 := pushLog s1 (.opStarted id)
    let s3 := appendLogs s2 (List.replicate o.startedListeners (.fwdOpStarted id))
    schedule s3 (c.latency id a) 0 (.settle id a)

/-- Whether the maximum number of concurrent operations is being run
(Job.isFull, part_005 lines 248-250). -/
def isFull (c : JobConfig) (s : JobState) : Bool :=
  s.numCurrentOperations ≥ (c.maxConcurrentOperations : Int)

/-- Whether there are any queued operations remaining (Job.hasPending,
part_005 lines 255-257). -/
def hasPending (s : JobState) : Bool :=
  decide (s.queuedOperations ≠ [])

/-- Whether this job is done (Job.isComplete, part_005 lines 262-264). -/
def isComplete (s : JobState) : Bool :=
  decide (s.numCurrentOperations = 0) && !hasPending s

/-- Job.startNextOperation (part_005 lines 272-342).  The fuel only
bounds the self-recursion of the dispatcher and of the handlers it is
called from; every run below uses ample fuel.  Note that both the
recursive batching call and the calls made from
handleOperationComplete pass cooled = false, so a configured cooldown
is re-applied on every such invocation. -/
def startNextOperation (c : JobConfig) : Nat → Bool → JobState → JobState
  | 0, _, s => s
  | fuel + 1, cooled, s =>
    if c.cooldown ≠ 0 ∧ cooled = false then
      let s1 := schedule s c.cooldown 1 .dispatch
      { s1 with cooldownApplications := s1.cooldownApplications + 1 }
    else if isFull c s then s
    else if isComplete s then
      if s.status = .completed then s
      else
        pushLog { s with status := .completed }
          (.jobCompleted s.queuedOperations s.currentOperations
            s.numCurrentOperations)
    else
      match s.queuedOperations with
      | [] => s
      | id :: rest =>
        let s1 :=
          { s with
            queuedOperations := rest,
            currentOperations :=
              if id ∈ s.currentOperations then s.currentOperations
              else s.currentOperations ++ [id],
            numCurrentOperations := s.numCurrentOperations + 1 }
        let o := opsGet s1 id
        let s2 := opsSet s1 id
          { o with
            startedListeners := o.startedListeners + 1,
            completedListeners := o.completedListeners + 1,
            failedListeners := o.failedListeners + 1 }
        let s3 := schedule s2 (o.timesFailed * c.throttle) 1 (.runStart id)
        startNextOperation c fuel false s3

/-- Job.handleOperationComplete (part_005 lines 349-361).  The
operation is fetched from currentOperations before anything else; when
it is absent the JavaScript lookup yields undefined, modelled as none
in the completedOperations entry.  The counter is decremented whether
or not the id was present, exactly as in the source. -/
def handleOperationComplete (c : JobConfig) (fuel : Nat) (id : Nat)
    (final : Bool) (s : JobState) : JobState :=
  let present := id ∈ s.currentOperations
  let s1 :=
    if final then
      let o := opsGet s id
      pushLog
        { s with completedOperations :=
            s.completedOperations ++ [if present then some id else none] }
        (.finalized id o.timesFailed o.failEmits)
    else s
  let s2 :=
    { s1 with
      currentOperations := s1.currentOperations.erase id,
      numCurrentOperations := s1.numCurrentOperations - 1 }
  startNextOperation c fuel false s2

/-- Body of the OPERATION_FAILED once-listener attached at dispatch
(part_005 lines 315-327): re-emit at Job level, then requeue the
operation when timesFailed is still under the limit, else finalize. -/
def failedHandler (c : JobConfig) (fuel : Nat) (id : Nat) (s : JobState) :
    JobState :=
  let s1 := pushLog s (.fwdOpFailed id)
  if (opsGet s1 id).timesFailed < c.maxFailuresPerOperation then
    handleOperationComplete c fuel id false
      { s1 with queuedOperations := s1.queuedOperations ++ [id] }
  else
    handleOperationComplete c fuel id true s1

/-- Body of the OPERATION_COMPLETED once-listener attached at dispatch
(part_005 lines 308-314). -/
def completedHandler (c : JobConfig) (fuel : Nat) (id : Nat) (s : JobState) :
    JobState :=
  handleOperationComplete c fuel id true (pushLog s (.fwdOpCompleted id))

/-- One emission of OPERATION_FAILED (the emit utility of part_005
lines 76-79, invoked from the catch handler).  All live
failed-once-listeners are removed and their handler bodies run in
order; listeners attached while they run are kept for the next
emission (Node emit iterates over a snapshot of the listener list). -/
def emitOperationFailed (c : JobConfig) (fuel : Nat) (id : Nat)
    (s : JobState) : JobState :=
  let o := opsGet s id
  let s1 := pushLog
    (opsSet s id { o with failedListeners := 0, failEmits := o.failEmits + 1 })
    (.opFailed id)
  (List.range o.failedListeners).foldl (fun acc _ => failedHandler c fuel id acc) s1

/-- One emission of OPERATION_COMPLETED, same emitter semantics. -/
def emitOperationCompleted (c : JobConfig) (fuel : Nat) (id : Nat)
    (s : JobState) : JobState :=
  let o := opsGet s id
  let s1 := pushLog (opsSet s id { o with completedListeners := 0 })
    (.opCompleted id)
  (List.range o.completedListeners).foldl
    (fun acc _ => completedHandler c fuel id acc) s1

/-- Settlement of the promise produced by attempt number `attempt` of
operation `id`: the then / catch bodies of Operation.start (part_005
lines 61-73).  On rejection the source emits OPERATION_FAILED twice
(lines 71 and 72); the model reproduces both emissions. -/
def settleOperation (c : JobConfig) (fuel : Nat) (id : Nat) (attempt : Nat)
    (s : JobState) : JobState :=
  let o := opsGet s id
  if c.succeeds id attempt then
    emitOperationCompleted c fuel id
      (opsSet s id { o with status := .completed, result := some true })
  else
    let s1 := opsSet s id
      { o with status := .failed, result := some false,
               timesFailed := o.timesFailed + 1 }
    let s2 := emitOperationFailed c fuel id s1
    emitOperationFailed c fuel id s2

/-- Job.start (part_005 lines 221-235): no-op when already STARTED,
otherwise mark STARTED, emit JOB_STARTED and invoke the dispatcher. -/
def jobStart (c : JobConfig) (fuel : Nat) (s : JobState) : JobState :=
  if s.status = .started then s
  else
    startNextOperation c fuel false
      (pushLog { s with status := .started } .jobStarted)

/-- Execute one due task. -/
def runTask (c : JobConfig) (fuel : Nat) (t : STask) (s : JobState) : JobState :=
  match t.kind with
  | .dispatch => startNextOperation c fuel true s
  | .runStart id => operationStart c id s
  | .settle id attempt => settleOperation c fuel id attempt s

/-- Pop and execute the earliest task, if any. -/
def stepScheduler (c : JobConfig) (fuel : Nat) (s : JobState) : JobState :=
  match s.tasks with
  | [] => s
  | t :: rest => runTask c fuel t { s with tasks := rest, now := t.time }

/-- Run the event loop for the given number of task steps. -/
def runScheduler (c : JobConfig) (fuel : Nat) : Nat → JobState → JobState
  | 0, s => s
  | n + 1, s => runScheduler c fuel n (stepScheduler c fuel s)

/-- A freshly constructed Job (part_005 lines 176-215): every datum is
turned into a PENDING operation, all of them queued in order. -/
def initState (c : JobConfig) : JobState :=
  { ops := List.replicate c.nOps operationNew,
    status := .pending,
    queuedOperations := List.range c.nOps,
    currentOperations := [],
    numCurrentOperations := 0,
    completedOperations := [],
    log := [], tasks := [], now := 0, nextSeq := 0,
    cooldownApplications := 0 }

/-- Start a fresh Job and run the event loop for `steps` tasks. -/
def runJob (c : JobConfig) (fuel steps : Nat) : JobState :=
  runScheduler c fuel steps (jobStart c fuel (initState c))

/-- Operation.export (part_005 lines 82-90) restricted to the fields
claims mention: id, status, result. -/
def operationExport (s : JobState) (id : Nat) : Nat × OpStatus × Option Bool :=
  (id, (opsGet s id).status, (opsGet s id).result)

/-- The operations list of Job.export (part_005 lines 374-385):
Object.values of operationIndex, one entry per distinct id. -/
def jobExport (c : JobConfig) (s : JobState) : List (Nat × OpStatus × Option Bool) :=
  (List.range c.nOps).map (operationExport s)

/-- Recognizer for jobCompleted log entries. -/
def isJobCompletedEv : JobEv → Bool
  | .jobCompleted _ _ _ => true
  | _ => false

/-- Recognizer for finalized log entries. -/
def isFinalizedEv : JobEv → Bool
  | .finalized _ _ _ => true
  | _ => false

/-- Scenario used for C1, C2 and C9: two operations with
maxConcurrentOperations = 2 and maxFailuresPerOperation = 2.  The
transform of operation 0 rejects immediately on its first attempt and
resolves immediately on later attempts; the transform of operation 1
resolves after 100 ms. -/
def cfgA : JobConfig :=
  { nOps := 2, maxConcurrentOperations := 2, maxFailuresPerOperation := 2,
    cooldown := 0, throttle := 0,
    succeeds := fun id attempt => !(id == 0 && attempt == 1),
    latency := fun id _ => if id = 0 then 0 else 100 }

/-- The run of scenario cfgA up to the given number of task steps. -/
def traceA (steps : Nat) : JobState := runJob cfgA 100 steps

/-- Scenario used for C3, C4 and C7: one operation whose transform
rejects immediately on every attempt, maxFailuresPerOperation = 2. -/
def cfgB : JobConfig :=
  { nOps := 1, maxConcurrentOperations := 1, maxFailuresPerOperation := 2,
    cooldown := 0, throttle := 0,
    succeeds := fun _ _ => false,
    latency := fun _ _ => 0 }

/-- The run of scenario cfgB up to the given number of task steps. -/
def traceB (steps : Nat) : JobState := runJob cfgB 100 steps

/-- Scenario used for C5: one immediately succeeding operation with a
cooldown of 5 ms. -/
def cfgC : JobConfig :=
  { nOps := 1, maxConcurrentOperations := 1, maxFailuresPerOperation := 1,
    cooldown := 5, throttle := 0,
    succeeds := fun _ _ => true,
    latency := fun _ _ => 0 }

/-- The run of scenario cfgC up to the given number of task steps. -/
def traceC (steps : Nat) : JobState := runJob cfgC 100 steps

/-!
Reduced state machine of the Operation class alone (part_005 lines
16-91), used for the result / status lifecycle: the fields the source
mutates are status, result and timesFailed.  The three actions are a
call of start() and the two settlement reactions of the promise made
by execute().  start() with status STARTED is the idempotence guard
and changes nothing; otherwise it only sets status := STARTED — in
particular it never clears result.  The then reaction sets status
COMPLETED and stores the result; the catch reaction sets status
FAILED, stores the failure reason and increments timesFailed.
-/

/-- The fields of one Operation that its own methods mutate. -/
structure OperationCore where
  status : OpStatus
  result : Option Bool
  timesFailed : Nat
deriving DecidableEq, Repr

/-- A freshly constructed Operation, core fields only. -/
def operationCoreNew : OperationCore :=
  { status := .pending, result := none, timesFailed := 0 }

/-- Actions on one Operation: a start() call, a resolution of the
transform promise, or a rejection of the transform promise. -/
inductive OperationAct
  | start
  | resolveOk
  | rejectErr
deriving DecidableEq, Repr

/-- One action applied to the core Operation state, mirroring
Operation.start and its then / catch bodies. -/
def operationCoreStep (o : OperationCore) : OperationAct → OperationCore
  | .start => if o.status = .started then o else { o with status := .started }
  | .resolveOk => { o with status := .completed, result := some true }
  | .rejectErr =>
      { o with status := .failed, result := some false,
               timesFailed := o.timesFailed + 1 }

/-- Run a sequence of actions on a fresh Operation. -/
def operationCoreRun (acts : List OperationAct) : OperationCore :=
  acts.foldl operationCoreStep operationCoreNew

/-- Whether an action settles the transform promise. -/
def operationActSettles : OperationAct → Bool
  | .start => false
  | .resolveOk => true
  | .rejectErr => true

/-!
Promise-settlement model of the Queue accessors (part_008).  A
JavaScript promise settles at most once: the first resolve or reject
call wins and later ones are ignored.  An executor is therefore
modelled by the ordered list of settle calls it makes; the outcome of
the promise is the first entry, or pending when the executor never
calls either function.  Crucially, getJobExport passes an async
function as the executor of new Promise: an exception raised after an
await inside such an executor (here, the rejection of the awaited
hasJob promise) rejects only the discarded promise of the async
function itself, never the outer promise — so the outer promise stays
pending forever.
-/

/-- Outcome of a promise: resolved with a value, rejected with a
message, or never settled. -/
inductive JsOutcome (α : Type)
  | resolved (v : α)
  | rejected (msg : String)
  | pending
deriving DecidableEq, Repr

/-- The first settle call wins; no call means the promise stays
pending. -/
def firstSettle {α : Type} : List (JsOutcome α) → JsOutcome α
  | [] => .pending
  | a :: _ => a

/-- Queue.hasJob (part_008 lines 106-125).  Arguments: whether the name
is in the in-memory jobIndex, the includePersisted flag, whether a
persistence directory was configured, and whether the persisted file
exists in that directory.  The executor resolves true for an in-memory
job; then, when includePersisted is set, it rejects with the
configuration error if no directory is configured, and in every case
calls fs.access whose callback resolves with the existence of the file
(with no configured directory the probed path is the literal string
undefined slash name, which does not exist); otherwise it resolves
false. -/
def hasJob (inIndex includePersisted dirConfigured fileExists : Bool) :
    JsOutcome Bool :=
  firstSettle
    ((if inIndex then [JsOutcome.resolved true] else []) ++
     (if includePersisted then
        (if !dirConfigured then
          [JsOutcome.rejected "No export directory passed into queue."]
         else []) ++
        [JsOutcome.resolved (dirConfigured && fileExists)]
      else [JsOutcome.resolved false]))

/-- Queue.getJobExport (part_008 lines 163-195).  The executor is an
async function that first awaits hasJob: when that await raises (hasJob
rejected), the outer promise never settles, as explained above.  When
hasJob resolves false, reject("Job not found.") runs but the executor
continues.  An in-memory job is returned with a plain return statement,
which settles nothing.  Otherwise, with includePersisted set and a
directory configured, fs.readFile settles the promise with the parsed
file or a read error; with includePersisted unset, reject() runs with
no reason.  readOk abstracts a successful read and parse of the
persisted file. -/
def getJobExport (inIndex includePersisted dirConfigured fileExists readOk :
    Bool) : JsOutcome Bool :=
  match hasJob inIndex includePersisted dirConfigured fileExists with
  | .rejected _ => .pending
  | .pending => .pending
  | .resolved found =>
    firstSettle
      ((if !found then [JsOutcome.rejected "Job not found."] else []) ++
       (if inIndex then []
        else if includePersisted then
          (if !dirConfigured then []
           else if readOk then [JsOutcome.resolved true]
           else [JsOutcome.rejected "read error"])
        else [JsOutcome.rejected "reject called with no reason"]))

set_option maxRecDepth 4000

/-- Helper: reading an index back after List.set at that index. -/
theorem getD_set_self (l : List OperationState) (i : Nat) (o : OperationState)
    (h : i < l.length) : (l.set i o).getD i operationNew = o := by
  induction l generalizing i with
  | nil => simp at h
  | cons a as ih =>
    cases i with
    | zero => rfl
    | succ n =>
      have h2 : n < as.length := by simpa using h
      simpa [List.getD_cons_succ] using ih n h2

/-- Helper: an uncooled dispatcher call on a job with empty backlog, a
zero in-flight counter and room under the concurrency limit marks the
job COMPLETED and emits JOB_COMPLETED. -/
theorem sNO_completes (c : JobConfig) (fuel : Nat) (s : JobState)
    (hc : c.cooldown = 0) (hm : 0 < c.maxConcurrentOperations)
    (hn : s.numCurrentOperations = 0) (hq : s.queuedOperations = [])
    (hs : s.status ≠ .completed) :
    startNextOperation c (fuel + 1) false s =
      pushLog { s with status := .completed }
        (.jobCompleted [] s.currentOperations 0) := by
  have h2 : isFull c s = false := by
    simp only [isFull, hn, decide_eq_false_iff_not]
    omega
  have h3 : isComplete s = true := by
    simp [isComplete, hasPending, hn, hq]
  simp [startNextOperation, hc, h2, h3, hs, hn, hq]

/-- Helper: across any action sequence, the result field of an
Operation is set exactly when the initial result was set or some
settlement action occurred; start never writes the result field. -/
theorem operationCore_foldl_result (acts : List OperationAct) (o : OperationCore) :
    ((acts.foldl operationCoreStep o).result).isSome =
      (o.result.isSome || acts.any operationActSettles) := by
  induction acts generalizing o with
  | nil => simp
  | cons a as ih =>
    cases a with
    | start =>
      simp only [List.foldl_cons, List.any_cons, operationActSettles, Bool.false_or]
      rw [ih]
      congr 1
      by_cases h : o.status = .started <;> simp [operationCoreStep, h]
    | resolveOk => simp [List.foldl_cons, operationCoreStep, ih, operationActSettles]
    | rejectErr => simp [List.foldl_cons, operationCoreStep, ih, operationActSettles]

/-- C1: the claim states that numCurrentOperations always equals the
size of the currentOperations map and never exceeds
maxConcurrentOperations.  The code violates the equality: in scenario
cfgA the duplicated OPERATION_FAILED emission of Operation.start makes
the Job attach a second set of once-listeners to operation 0, all of
whose COMPLETED handlers later run on a single completion, so
handleOperationComplete decrements the counter three times for one
operation; in the quiescent final state the counter reads -2 while the
map is empty, and at the JOB_COMPLETED instant it read 0 while the map
still held operation 1. -/
theorem C1_inflight_counter_desyncs :
    (traceA 12).numCurrentOperations = -2 ∧
    (traceA 12).currentOperations = [] ∧
    (traceA 12).numCurrentOperations ≠
      ((traceA 12).currentOperations.length : Int) := by
  refine ⟨by decide, by decide, by decide⟩

/-- C2: the claim states that JOB_COMPLETED is emitted exactly once and
only when the backlog is empty and the in-flight set is empty.  In
scenario cfgA the signal is emitted exactly once, but at that instant
currentOperations still contains operation 1, whose transform has not
settled: the numCurrentOperations counter reads 0 only because the
duplicated OPERATION_FAILED emission made duplicate completion handlers
decrement it for operation 0 twice too often. -/
theorem C2_completion_fires_while_operation_in_flight :
    ((traceA 12).log.filter isJobCompletedEv) = [.jobCompleted [] [1] 0] ∧
    ([1] : List Nat) ≠ [] := ⟨by decide, by decide⟩

/-- C3: the claim states that at finalization timesFailed equals the
number of OPERATION_FAILED signals emitted for the id.  In scenario
cfgB the operation is finalized with timesFailed = 2 after its emitter
has already emitted OPERATION_FAILED three times (each failure emits
the signal twice, part_005 lines 71-72), so the counts differ. -/
theorem C3_failed_signal_count_exceeds_timesFailed :
    ((traceB 8).log.filter isFinalizedEv) = [.finalized 0 2 3] ∧
    cfgB.maxFailuresPerOperation = 2 ∧ (3 : Nat) ≠ 2 :=
  ⟨by decide, by decide, by decide⟩

/-- C4: the claim states that an always-failing transform is invoked at
most maxFailuresPerOperation times.  In scenario cfgB, with a budget of
2, the transform runs 3 times: the duplicated OPERATION_FAILED emission
schedules a duplicate retry timer, and since the guard of
Operation.start only blocks the STARTED status, the stale timer
re-runs the operation after its second failure has already been
finalized. -/
theorem C4_transform_runs_more_than_retry_budget :
    (opsGet (traceB 8) 0).attempts = 3 ∧
    cfgB.maxFailuresPerOperation < (opsGet (traceB 8) 0).attempts ∧
    (opsGet (traceB 8) 0).status = .failed ∧
    (traceB 8).completedOperations = [some 0] :=
  ⟨by decide, by decide, by decide, by decide⟩

/-- C5 counterexample: the claim states that the cooldown delay is
applied to the dispatcher exactly once per Job.  In scenario cfgC (one
immediately succeeding operation, cooldown 5 ms) the cooldown branch of
startNextOperation runs three times — before the first dispatch, on the
recursive batching call, and on the invocation triggered by the
completion — and the job completes at 10 ms, two cooldown periods after
start. -/
theorem C5_cooldown_not_applied_once :
    (traceC 6).cooldownApplications = 3 ∧ (3 : Nat) ≠ 1 ∧
    (traceC 6).now = 10 := ⟨by decide, by decide, by decide⟩

/-- C5 (amended): with a nonzero cooldown, every dispatcher invocation
that is not already cooled — the initial call from Job.start, the
recursive batching call, and every call made from
handleOperationComplete after a completion or failure — only schedules
a cooldown timer that re-enters the dispatcher cooled after cooldownMs;
the cooldown is therefore applied per invocation, not once per Job. -/
theorem C5_cooldown_applied_on_every_uncooled_invocation (c : JobConfig)
    (fuel : Nat) (s : JobState) (h : c.cooldown ≠ 0) :
    startNextOperation c (fuel + 1) false s =
      (let s1 := schedule s c.cooldown 1 .dispatch
       { s1 with cooldownApplications := s1.cooldownApplications + 1 }) := by
  simp [startNextOperation, h]

/-- Witness for the amended C5 theorem at a concrete state. -/
theorem C5_cooldown_applied_on_every_uncooled_invocation_witness :
    cfgC.cooldown ≠ 0 ∧
    startNextOperation cfgC 1 false (initState cfgC) =
      (let s1 := schedule (initState cfgC) cfgC.cooldown 1 .dispatch
       { s1 with cooldownApplications := s1.cooldownApplications + 1 }) :=
  ⟨by decide,
   C5_cooldown_applied_on_every_uncooled_invocation cfgC 0 (initState cfgC)
     (by decide)⟩

/-- C6: calling start() again while the previous start is in effect
(status STARTED) is a no-op for both Job and Operation: the state,
including the event log and the ghost attempts counter, is returned
unchanged, so no second started signal and no second execution attempt
sequence is produced. -/
theorem C6_second_start_is_noop (c : JobConfig) (fuel : Nat) (s : JobState)
    (id : Nat) :
    (s.status = .started → jobStart c fuel s = s) ∧
    ((opsGet s id).status = .started → operationStart c id s = s) := by
  constructor
  · intro h; simp [jobStart, h]
  · intro h; simp [operationStart, h]

/-- A state whose Job and operation 0 are both STARTED. -/
def startedJobState : JobState :=
  { initState cfgB with
    status := .started,
    ops := [{ operationNew with status := .started }] }

/-- Witness for the C6 theorem at a concrete state. -/
theorem C6_second_start_is_noop_witness :
    startedJobState.status = .started ∧
    (opsGet startedJobState 0).status = .started ∧
    jobStart cfgB 5 startedJobState = startedJobState ∧
    operationStart cfgB 0 startedJobState = startedJobState :=
  ⟨rfl, rfl, (C6_second_start_is_noop cfgB 5 startedJobState 0).1 rfl,
   (C6_second_start_is_noop cfgB 5 startedJobState 0).2 rfl⟩

/-- C7 counterexample: the claim states that the result field is set if
and only if the status is Completed or Failed, including while a retry
is in flight.  In scenario cfgB, after the first failure is requeued
and the retry timer fires, operation 0 has status STARTED while its
result still holds the stored failure reason: Operation.start never
clears result. -/
theorem C7_result_set_while_retry_started :
    (opsGet (traceB 3) 0).status = .started ∧
    (opsGet (traceB 3) 0).result = some false := ⟨by decide, by decide⟩

/-- C7 (amended): over the Operation lifecycle, result is set exactly
when the transform promise has settled at least once; it is unset until
the first settlement and is never cleared afterwards — in particular a
retried operation keeps the failure reason of its previous attempt as
result while its status is Started. -/
theorem C7_result_set_iff_settled_once (acts : List OperationAct) :
    ((operationCoreRun acts).result).isSome = acts.any operationActSettles := by
  rw [operationCoreRun, operationCore_foldl_result]
  rfl

/-- C8: the claim states that getJobExport on a Queue without a
persistence directory, for a name outside the index and with
includePersisted set, rejects with the configuration error and does not
hang.  In the code hasJob does reject with that error, but getJobExport
passes an async function to the Promise constructor: the rejection
raised by the await inside it is swallowed, so the promise getJobExport
returns never settles and the caller hangs. -/
theorem C8_getJobExport_never_settles_without_dir :
    hasJob false true false false =
      .rejected "No export directory passed into queue." ∧
    getJobExport false true false false false = .pending := ⟨rfl, rfl⟩

/-- C9: the claim states that once a Job with distinct ids has
completed, export() lists one entry per input element, each with a
terminal status.  In scenario cfgA, at the instant the job has emitted
JOB_COMPLETED (after five event-loop tasks), export still lists
operation 1 with the non-terminal status STARTED, because completion
fired while that operation was in flight. -/
theorem C9_export_lists_nonterminal_after_completion :
    (traceA 5).status = .completed ∧
    jobExport cfgA (traceA 5) =
      [(0, .completed, some true), (1, .started, none)] :=
  ⟨by decide, by decide⟩

/-- C10: the idempotence guard of start() only blocks the STARTED
status.  A Job whose status is COMPLETED re-enters the start sequence
and emits a second JOB_STARTED, and, when its backlog is empty and its
in-flight counter is zero (all operations finalized) with no cooldown
configured, a second JOB_COMPLETED in the same synchronous call; an
Operation whose status is COMPLETED or FAILED runs its transform again
on start(), advancing the attempts counter and re-entering STARTED. -/
theorem C10_start_guard_only_blocks_started (c : JobConfig) (fuel : Nat)
    (s : JobState) (id : Nat) :
    (s.status = .completed → c.cooldown = 0 → 0 < c.maxConcurrentOperations →
      s.numCurrentOperations = 0 → s.queuedOperations = [] →
      (jobStart c (fuel + 1) s).status = .completed ∧
      (jobStart c (fuel + 1) s).log =
        s.log ++ [.jobStarted, .jobCompleted [] s.currentOperations 0]) ∧
    (((opsGet s id).status = .completed ∨ (opsGet s id).status = .failed) →
      id < s.ops.length →
      (opsGet (operationStart c id s) id).attempts =
        (opsGet s id).attempts + 1 ∧
      (opsGet (operationStart c id s) id).status = .started) := by
  constructor
  · intro h hc hm hn hq
    have hne : s.status ≠ .started := by rw [h]; intro hx; cases hx
    rw [jobStart, if_neg hne]
    rw [sNO_completes c fuel _ hc hm (by simpa [pushLog] using hn)
      (by simpa [pushLog] using hq) (by simp [pushLog])]
    constructor
    · rfl
    · simp [pushLog]
  · intro h hlen
    have hne : (s.ops.getD id operationNew).status ≠ .started := by
      rcases h with h | h <;> rw [opsGet] at h <;> rw [h] <;> intro hx <;> cases hx
    simp only [operationStart, opsGet, opsSet, pushLog, appendLogs, schedule,
      if_neg hne]
    constructor
    · rw [getD_set_self _ _ _ hlen]
    · rw [getD_set_self _ _ _ hlen]

/-- A quiescent completed Job whose single operation is FAILED. -/
def completedJobState : JobState :=
  { initState cfgB with
    status := .completed,
    queuedOperations := [],
    ops := [{ operationNew with status := .failed }] }

/-- Witness for the C10 theorem at a concrete state. -/
theorem C10_start_guard_only_blocks_started_witness :
    completedJobState.status = .completed ∧
    (jobStart cfgB 5 completedJobState).status = .completed ∧
    (jobStart cfgB 5 completedJobState).log =
      completedJobState.log ++
        [.jobStarted, .jobCompleted [] completedJobState.currentOperations 0] ∧
    (opsGet (operationStart cfgB 0 completedJobState) 0).attempts =
      (opsGet completedJobState 0).attempts + 1 ∧
    (opsGet (operationStart cfgB 0 completedJobState) 0).status = .started := by
  have h := C10_start_guard_only_blocks_started cfgB 4 completedJobState 0
  exact ⟨rfl, (h.1 rfl rfl (by decide) rfl rfl).1,
    (h.1 rfl rfl (by decide) rfl rfl).2,
    (h.2 (Or.inr rfl) (by decide)).1, (h.2 (Or.inr rfl) (by decide)).2⟩

end Joob
